import Mathlib

/-!
Shallow embedding of `src/drive_gpt_app.py` (Google Drive file analyzer).
External collaborators (Drive download/export, the parsing libraries
fitz/docx/pptx/PIL, and the OpenAI client) are modelled as capabilities
passed in records; the glue logic of the script is translated directly.
Bytes are natural numbers below 256; Python exceptions that the script
does not catch are modelled with `Except`.
-/

namespace DriveGPT

abbrev Byte := Nat

/-- Python `pat in s` substring test on lists of characters. -/
def listHasSub (pat : List Char) : List Char → Bool
  | [] => pat.isEmpty
  | c :: rest => (pat.isPrefixOf (c :: rest)) || listHasSub pat rest

/-- Python `pat in s` substring test on strings. -/
def strHasSub (s pat : String) : Bool :=
  listHasSub pat.toList s.toList

/-- Python `s.startswith(pat)`. -/
def strStartsWith (s pat : String) : Bool :=
  pat.toList.isPrefixOf s.toList

/-- Python `sep.join(l)`. -/
def joinWith (sep : String) : List String → String
  | [] => ""
  | [s] => s
  | s :: rest => s ++ sep ++ joinWith sep rest

/-! ## UTF-8 decoding (Python `bytes.decode("utf-8", errors=...)`)

The decoder follows the standard (WHATWG) UTF-8 decode state machine,
which matches CPython's decoder: an illegal lead byte is one error, an
illegal continuation byte ends the current sequence with one error and is
then reprocessed as a fresh lead byte, and a truncated sequence at end of
input is one error. -/

/-- Decoder state in the middle of a multi-byte sequence: number of
continuation bytes still needed, the code point accumulated so far, and
the admissible range for the next byte. -/
structure U8State where
  needed : Nat
  cp : Nat
  lo : Nat
  hi : Nat
deriving Repr, DecidableEq

/-- One decoded item: a code point or a decoding error. -/
inductive U8Out where
  | ch (c : Nat)
  | err
deriving Repr, DecidableEq

/-- Classify a byte in lead position: `.inl (some c)` is a complete ASCII
code point, `.inl none` is an error byte, `.inr st` starts a multi-byte
sequence. -/
def u8Start (b : Byte) : Sum (Option Nat) U8State :=
  if b < 0x80 then .inl (some b)
  else if 0xC2 ≤ b && b ≤ 0xDF then .inr ⟨1, b % 32, 0x80, 0xBF⟩
  else if b = 0xE0 then .inr ⟨2, b % 16, 0xA0, 0xBF⟩
  else if b = 0xED then .inr ⟨2, b % 16, 0x80, 0x9F⟩
  else if 0xE1 ≤ b && b ≤ 0xEF then .inr ⟨2, b % 16, 0x80, 0xBF⟩
  else if b = 0xF0 then .inr ⟨3, b % 8, 0x90, 0xBF⟩
  else if b = 0xF4 then .inr ⟨3, b % 8, 0x80, 0x8F⟩
  else if 0xF1 ≤ b && b ≤ 0xF3 then .inr ⟨3, b % 8, 0x80, 0xBF⟩
  else .inl none

mutual

/-- Decode from lead position. -/
def u8Run : List Byte → List U8Out
  | [] => []
  | b :: rest =>
    match u8Start b with
    | .inl (some c) => .ch c :: u8Run rest
    | .inl none => .err :: u8Run rest
    | .inr st => u8Cont st rest

/-- Decode continuation bytes of a sequence in progress. -/
def u8Cont (st : U8State) : List Byte → List U8Out
  | [] => [.err]
  | b :: rest =>
    if st.lo ≤ b && b ≤ st.hi then
      let cp := st.cp * 64 + b % 64
      if st.needed = 1 then .ch cp :: u8Run rest
      else u8Cont ⟨st.needed - 1, cp, 0x80, 0xBF⟩ rest
    else
      -- illegal continuation: one error, then reprocess `b` as a lead byte
      .err ::
        (match u8Start b with
         | .inl (some c) => .ch c :: u8Run rest
         | .inl none => .err :: u8Run rest
         | .inr st2 => u8Cont st2 rest)

end

/-- Python `bytes.decode("utf-8", errors="ignore")`: errors are dropped. -/
def utf8DecodeIgnore (bytes : List Byte) : String :=
  String.mk ((u8Run bytes).filterMap fun o =>
    match o with
    | .ch c => some (Char.ofNat c)
    | .err => none)

/-- Python `bytes.decode("utf-8", errors="replace")`: errors become U+FFFD. -/
def utf8DecodeReplace (bytes : List Byte) : String :=
  String.mk ((u8Run bytes).map fun o =>
    match o with
    | .ch c => Char.ofNat c
    | .err => Char.ofNat 0xFFFD)

/-- Python `bytes.decode("utf-8")` (strict): any error raises
`UnicodeDecodeError`, modelled as `none`. -/
def utf8DecodeStrict (bytes : List Byte) : Option String :=
  if (u8Run bytes).any (fun o => o = .err) then none
  else some (String.mk ((u8Run bytes).filterMap fun o =>
    match o with
    | .ch c => some (Char.ofNat c)
    | .err => none))

/-! ## base64 (Python `base64.b64encode(...)` followed by ASCII decode) -/

/-- The base64 alphabet character with the given 6-bit index. -/
def b64Char (n : Nat) : Char :=
  "ABCDEFGHIJKLMNOPQRSTUVWXYZabcdefghijklmnopqrstuvwxyz0123456789+/".toList.getD n 'A'

/-- Standard base64 of a byte list, as characters, with `=` padding. -/
def b64Chunks : List Byte → List Char
  | [] => []
  | [a] => [b64Char (a / 4), b64Char (a % 4 * 16), '=', '=']
  | [a, b] => [b64Char (a / 4), b64Char (a % 4 * 16 + b / 16), b64Char (b % 16 * 4), '=']
  | a :: b :: c :: rest =>
    b64Char (a / 4) :: b64Char (a % 4 * 16 + b / 16) ::
      b64Char (b % 16 * 4 + c / 64) :: b64Char (c % 64) :: b64Chunks rest

/-- Python `base64.b64encode(bytes).decode('utf-8')`. -/
def base64Encode (bs : List Byte) : String :=
  String.mk (b64Chunks bs)

/-! ## Data model -/

/-- One entry of the Drive listing: `{'id': ..., 'name': ..., 'mimeType': ...}`. -/
structure FileInfo where
  id : String
  name : String
  mimeType : String
deriving Repr, DecidableEq

/-- The tagged pair returned by `get_file_content`:
`("text", s)`, `("image", bytes)` or `("unsupported", reason)`. -/
inductive Payload where
  | text (s : String)
  | image (bytes : List Byte)
  | unsupported (reason : String)
deriving Repr, DecidableEq

/-- A Python exception that `get_file_content` does not catch and that
therefore escapes to the caller: a parsing-library exception (fitz, docx,
pptx, PIL) or the `UnicodeDecodeError` of the strict decode on the export
path. -/
inductive PyExn where
  | parseError (lib : String)
  | unicodeDecodeError
deriving Repr, DecidableEq

instance {ε α : Type} [DecidableEq ε] [DecidableEq α] : DecidableEq (Except ε α) := fun x y =>
  match x, y with
  | .ok a, .ok b => if h : a = b then .isTrue (by rw [h]) else .isFalse (by simp [h])
  | .error a, .error b => if h : a = b then .isTrue (by rw [h]) else .isFalse (by simp [h])
  | .ok _, .error _ => .isFalse (by simp)
  | .error _, .ok _ => .isFalse (by simp)

/-- The exception `googleapiclient.errors.HttpError`, carrying its display text. -/
structure HttpError where
  msg : String
deriving Repr, DecidableEq

/-- A shape of a pptx slide: `shape.has_text_frame` is `textFrame.isSome`;
when present, the text frame is its paragraphs, each a list of run texts. -/
structure PShape where
  textFrame : Option (List (List String))
deriving Repr, DecidableEq

/-- A pptx presentation: slides, each a list of shapes. -/
structure Presentation where
  slides : List (List PShape)
deriving Repr, DecidableEq

/-- Capabilities of the external collaborators used by `get_file_content`.
`getMedia`/`exportMedia` model `files().get_media` / `files().export_media`
followed by the chunked `MediaIoBaseDownload` loop; an `Except.error` is a
raised `HttpError`. The parsers model the third-party libraries applied to
the downloaded bytes: `none` means the library raised (an exception the
script does not catch). `pdfPages` gives `page.get_text()` per page in
page order; `docxParas` gives `para.text` per paragraph in document order;
`pptxParse` gives the presentation structure; `imageValid` is whether
`PIL.Image.open` succeeds. -/
structure DriveEnv where
  getMedia : String → Except HttpError (List Byte)
  exportMedia : String → String → Except HttpError (List Byte)
  pdfPages : List Byte → Option (List String)
  docxParas : List Byte → Option (List String)
  pptxParse : List Byte → Option Presentation
  imageValid : List Byte → Bool

/-- The run texts one shape contributes: nothing when it has no text
frame (`continue`), otherwise its paragraphs' runs in order. -/
def shapeRuns (shape : PShape) : List String :=
  match shape.textFrame with
  | none => []
  | some paragraphs => paragraphs.flatten

/-- The run texts collected by the pptx branch: slides in order, shapes in
order, paragraphs in order, runs in order. -/
def pptxRuns (prs : Presentation) : List String :=
  (prs.slides.map fun shapes => (shapes.map shapeRuns).flatten).flatten

/-- Function `get_file_content(drive_service, file_info)` from the source: download
the bytes, dispatch on the MIME type; on `HttpError`, fall back to the
Google Workspace export path. -/
def get_file_content (env : DriveEnv) (file_info : FileInfo) : Except PyExn Payload :=
  let file_id := file_info.id
  let mime_type := file_info.mimeType
  match env.getMedia file_id with
  | .ok file_bytes =>
    if strHasSub mime_type "pdf" then
      match env.pdfPages file_bytes with
      | some pages => .ok (.text (String.join pages))
      | none => .error (.parseError "fitz")
    else if strHasSub mime_type "vnd.openxmlformats-officedocument.wordprocessingml.document" then
      match env.docxParas file_bytes with
      | some paras => .ok (.text (joinWith "\n" paras))
      | none => .error (.parseError "docx")
    else if strHasSub mime_type "vnd.openxmlformats-officedocument.presentationml.presentation" then
      match env.pptxParse file_bytes with
      | some prs => .ok (.text (joinWith "\n" (pptxRuns prs)))
      | none => .error (.parseError "pptx")
    else if strHasSub mime_type "image" then
      if env.imageValid file_bytes then .ok (.image file_bytes)
      else .error (.parseError "PIL")
    else if strHasSub mime_type "text" then
      .ok (.text (utf8DecodeIgnore file_bytes))
    else
      .ok (.unsupported ("File type ('" ++ mime_type ++ "')"))
  | .error _ =>
    if strHasSub mime_type "google-apps" then
      if mime_type = "application/vnd.google-apps.shortcut" then
        .ok (.unsupported "Google Drive Shortcut")
      else
        let export_mime_type : Option String :=
          if mime_type = "application/vnd.google-apps.document" then some "text/plain"
          else if mime_type = "application/vnd.google-apps.spreadsheet" then some "text/csv"
          else if mime_type = "application/vnd.google-apps.presentation" then some "text/plain"
          else none
        match export_mime_type with
        | some emt =>
          match env.exportMedia file_id emt with
          | .ok export_bytes =>
            match utf8DecodeStrict export_bytes with
            | some s => .ok (.text s)
            | none => .error .unicodeDecodeError
          | .error e => .ok (.unsupported ("Export Error: " ++ e.msg))
        | none => .ok (.unsupported ("Google Workspace type (" ++ mime_type ++ ")"))
    else
      .ok (.unsupported "Google Drive API Error")

/-! ## OpenAI call (`get_ai_response`) -/

/-- One element of a multimodal `content` list: `{"type": "text", ...}` or
`{"type": "image_url", ...}`. -/
inductive MsgPart where
  | textPart (text : String)
  | imageUrlPart (url : String)
deriving Repr, DecidableEq

/-- The `content` of a chat message: a plain string (map step) or a list
of parts (reduce step). -/
inductive MsgContent where
  | plain (s : String)
  | parts (ps : List MsgPart)
deriving Repr, DecidableEq

/-- A chat message `{"role": ..., "content": ...}`. -/
structure ChatMessage where
  role : String
  content : MsgContent
deriving Repr, DecidableEq

/-- The OpenAI client capability: given model, messages and `max_tokens`,
either the response text (`response.choices[0].message.content`) or a
raised exception's string form. -/
structure ApiEnv where
  call : String → List ChatMessage → Nat → Except String String

/-- Function `get_ai_response(api_key, model, messages, max_tokens)`: returns the
model text, or on any exception the string `f"ERROR: {str(e)}"`. The
Python default `max_tokens=4000` is passed explicitly by callers here. -/
def get_ai_response (api : ApiEnv) (model : String) (messages : List ChatMessage)
    (max_tokens : Nat) : String :=
  match api.call model messages max_tokens with
  | .ok content => content
  | .error e => "ERROR: " ++ e

/-! ## Map step (the per-file loop under "MAP STEP" in the source) -/

/-- Accumulated state of one orchestration run: the `summaries` and
`image_parts` lists built by the loop, plus the `st.error` and
`st.warning` messages it displayed (one per failed summarization and one
per unsupported file, respectively). -/
structure MapState where
  summaries : List String
  image_parts : List (String × List Byte)
  errors : List String
  warnings : List String
deriving Repr, DecidableEq

/-- The empty state before the loop (`summaries = []`, `image_parts = []`). -/
def initState : MapState := ⟨[], [], [], []⟩

/-- The summarization prompt built for one text file. -/
def summaryPrompt (name content : String) : String :=
  "Summarize the key points of the following document named '" ++ name ++ "':\n\n" ++ content

/-- One iteration of the map loop for `file_info`: extract, then route by
tag. Text is summarized with `gpt-4o-mini` and `max_tokens=500`; a summary
starting with `"ERROR:"` is recorded with `st.error` and skipped
(`continue`); images are accumulated with their name; unsupported files
are recorded with `st.warning`. An exception escaping `get_file_content`
propagates. -/
def processFile (api : ApiEnv) (env : DriveEnv) (s : MapState) (file_info : FileInfo) :
    Except PyExn MapState :=
  match get_file_content env file_info with
  | .error e => .error e
  | .ok (.text content) =>
    let summary := get_ai_response api "gpt-4o-mini"
      [⟨"user", .plain (summaryPrompt file_info.name content)⟩] 500
    if strStartsWith summary "ERROR:" then
      .ok { s with errors :=
        s.errors ++ ["Could not summarize " ++ file_info.name ++ ": " ++ summary] }
    else
      .ok { s with summaries :=
        s.summaries ++ ["--- Summary of " ++ file_info.name ++ " ---\n" ++ summary] }
  | .ok (.image bytes) =>
    .ok { s with image_parts := s.image_parts ++ [(file_info.name, bytes)] }
  | .ok (.unsupported reason) =>
    .ok { s with warnings :=
      s.warnings ++ ["Skipping unsupported file: " ++ file_info.name ++ " (" ++ reason ++ ")"] }

/-- The map loop over the selected files in selection order. An exception
escaping any `get_file_content` call aborts the whole loop. -/
def runMap (api : ApiEnv) (env : DriveEnv) : List FileInfo → MapState → Except PyExn MapState
  | [], s => .ok s
  | f :: fs, s =>
    match processFile api env s f with
    | .error e => .error e
    | .ok s2 => runMap api env fs s2

/-! ## Reduce step -/

/-- The `final_context` string: the framing line, then (when any summaries exist)
`"\n\n".join(summaries)` appended. -/
def finalContext (summaries : List String) : String :=
  "Based on the following summaries and images, please answer the user's question.\n\n" ++
    (if summaries.isEmpty then "" else joinWith "\n\n" summaries)

/-- The `message_content` of the final request: the context text part, the
user-question text part, then one `image_url` part per accumulated image,
each a `data:image/jpeg;base64,` URL of the image bytes. -/
def buildMessageContent (summaries : List String) (image_parts : List (String × List Byte))
    (user_prompt : String) : List MsgPart :=
  [.textPart (finalContext summaries),
   .textPart ("\n\n--- USER QUESTION ---\n" ++ user_prompt)] ++
    image_parts.map fun img =>
      .imageUrlPart ("data:image/jpeg;base64," ++ base64Encode img.2)

/-- What the reduce step did: the model calls it made (model, messages,
`max_tokens`) and the texts it displayed to the user afterwards. -/
structure ReduceResult where
  modelCalls : List (String × List ChatMessage × Nat)
  displayed : List String
deriving DecidableEq

/-- The reduce step: `if summaries or image_parts:` build the final
messages and call `gpt-4o` once, displaying the response; otherwise the
script does nothing (there is no `else` branch). -/
def reduceStep (api : ApiEnv) (s : MapState) (user_prompt : String) : ReduceResult :=
  if s.summaries.isEmpty && s.image_parts.isEmpty then
    ⟨[], []⟩
  else
    let final_messages : List ChatMessage :=
      [⟨"user", .parts (buildMessageContent s.summaries s.image_parts user_prompt)⟩]
    let final_response := get_ai_response api "gpt-4o" final_messages 4000
    ⟨[("gpt-4o", final_messages, 4000)], [final_response]⟩

/-- A whole "Analyze Files" run: map over the selection, then reduce. -/
def runAnalysis (api : ApiEnv) (env : DriveEnv) (files : List FileInfo)
    (user_prompt : String) : Except PyExn (MapState × ReduceResult) :=
  match runMap api env files initState with
  | .error e => .error e
  | .ok s => .ok (s, reduceStep api s user_prompt)

/-- Number of terminal outcomes recorded in a state: summaries appended,
images accumulated, summarization errors recorded, unsupported warnings
recorded. -/
def outcomeCount (s : MapState) : Nat :=
  s.summaries.length + s.image_parts.length + s.errors.length + s.warnings.length

/-! ## Concrete fixtures used by witnesses and counterexamples -/

/-- A concrete 3-page environment for the C9 witness. -/
def envC9 : DriveEnv :=
  ⟨fun _ => .ok [1], fun _ _ => .error ⟨"e"⟩, fun _ => some ["A", "B", "C"],
   fun _ => none, fun _ => none, fun _ => false⟩

/-- A concrete environment for the C7 witness: the byte-fetch succeeds
and the PDF library yields one page "P". -/
def envC7 : DriveEnv :=
  ⟨fun _ => .ok [1], fun _ _ => .error ⟨"e"⟩, fun _ => some ["P"],
   fun _ => none, fun _ => none, fun _ => false⟩

/-- A concrete environment for C3: the downloaded bytes are
`b'A\xffB'` — `0xFF` can never occur in well-formed UTF-8. -/
def envC3 : DriveEnv :=
  ⟨fun _ => .ok [65, 255, 66], fun _ _ => .error ⟨"e"⟩, fun _ => none,
   fun _ => none, fun _ => none, fun _ => false⟩

/-- A concrete environment for the C5 witness: the primary fetch raises
and the plain-text export yields the bytes of "Hi". -/
def envC5 : DriveEnv :=
  ⟨fun _ => .error ⟨"403"⟩, fun _ emt => if emt = "text/plain" then .ok [72, 105] else .error ⟨"e"⟩,
   fun _ => none, fun _ => none, fun _ => none, fun _ => false⟩

/-- A concrete environment for C8: one slide holding a shape without a
text frame followed by a shape whose text frame has two paragraphs with
runs ["A"] and ["B"]. -/
def envC8 : DriveEnv :=
  ⟨fun _ => .ok [1], fun _ _ => .error ⟨"e"⟩, fun _ => none, fun _ => none,
   fun _ => some ⟨[[⟨none⟩, ⟨some [["A"], ["B"]]⟩]]⟩, fun _ => false⟩

/-- The presentation MIME type of the source's dispatch. -/
def pptxMime : String :=
  "application/vnd.openxmlformats-officedocument.presentationml.presentation"

/-- An OpenAI capability whose every call succeeds. -/
def apiOk : ApiEnv := ⟨fun _ _ _ => .ok "FINE"⟩

/-- An OpenAI capability whose every call raises (string form "boom"). -/
def apiFail : ApiEnv := ⟨fun _ _ _ => .error "boom"⟩

/-- A Drive environment whose byte-fetch succeeds with the bytes of "Hi"
and whose parsing libraries all raise (`PIL.Image.open` fails too). -/
def envPlain : DriveEnv :=
  ⟨fun _ => .ok [72, 105], fun _ _ => .error ⟨"e"⟩, fun _ => none,
   fun _ => none, fun _ => none, fun _ => false⟩

/-- A Drive environment with a valid image of bytes `[9]`. -/
def envImgOk : DriveEnv :=
  ⟨fun _ => .ok [9], fun _ _ => .error ⟨"e"⟩, fun _ => none,
   fun _ => none, fun _ => none, fun _ => true⟩

/-- The state after processing the single unsupported file `f.bin` of
MIME type `application/zip`. -/
def stateZip : MapState :=
  ⟨[], [], [], ["Skipping unsupported file: f.bin (File type ('application/zip'))"]⟩

/-! ## Theorems -/

/-- Any failure string produced by `get_ai_response` passes the
`startswith("ERROR:")` test of the map loop. -/
theorem strStartsWith_error_marker (e : String) :
    strStartsWith ("ERROR: " ++ e) "ERROR:" = true := by
  have h : ("ERROR: " ++ e).toList =
      'E' :: 'R' :: 'R' :: 'O' :: 'R' :: ':' :: ' ' :: e.toList := by
    show ("ERROR: " ++ e).data = _
    rw [String.data_append]
    rfl
  rw [strStartsWith, h]
  rw [show "ERROR:".toList = ['E', 'R', 'R', 'O', 'R', ':'] from rfl]
  simp [List.isPrefixOf]

/-- Each loop iteration whose extraction returns normally records exactly
one terminal outcome: a summary, an image, a summarization error, or an
unsupported warning. -/
theorem processFile_one_outcome (api : ApiEnv) (env : DriveEnv) (s : MapState)
    (fi : FileInfo) (s2 : MapState) (h : processFile api env s fi = .ok s2) :
    outcomeCount s2 = outcomeCount s + 1 := by
  unfold processFile at h
  split at h
  · exact absurd h (by simp)
  · dsimp only at h
    split at h <;> (injection h with h2; subst h2; simp [outcomeCount]; omega)
  · injection h with h2
    subst h2
    simp [outcomeCount]
    omega
  · injection h with h2
    subst h2
    simp [outcomeCount]
    omega

/-- C9: PDF extraction concatenates the extracted text of every page in
ascending page order with no separator between pages (so a 3-page PDF
whose pages yield "A", "B", "C" extracts to exactly "ABC", as the witness
instantiates): whenever the download succeeds, the MIME type contains
`pdf` and the PDF library yields the per-page texts `pages` in page
order, `get_file_content` returns `Text (String.join pages)`, the
separator-free concatenation of the page texts. -/
theorem C9_pdf_concatenation (env : DriveEnv) (fi : FileInfo) (bytes : List Byte)
    (pages : List String)
    (hfetch : env.getMedia fi.id = .ok bytes)
    (hmime : strHasSub fi.mimeType "pdf" = true)
    (hparse : env.pdfPages bytes = some pages) :
    get_file_content env fi = .ok (.text (String.join pages)) := by
  simp [get_file_content, hfetch, hmime, hparse]

/-- Witness for C9: a 3-page PDF with page texts "A", "B", "C" extracts to
exactly "ABC". -/
theorem C9_pdf_concatenation_witness :
    get_file_content envC9 ⟨"id1", "doc.pdf", "application/pdf"⟩ = .ok (.text "ABC") := by
  have h := C9_pdf_concatenation envC9 ⟨"id1", "doc.pdf", "application/pdf"⟩ [1]
    ["A", "B", "C"] rfl (by decide) rfl
  rw [show String.join ["A", "B", "C"] = "ABC" from by decide] at h
  exact h

/-- C7: when the download succeeds, content-extraction dispatch follows
the fixed precedence pdf, then word-processing document, then
presentation, then image, then text, then Unsupported: each branch is
taken exactly when its substring matches and no earlier one does, so a
MIME type matching several substring rules resolves to the first matching
rule; and the Unsupported reason for an unmatched type names the literal
MIME type. -/
theorem C7_dispatch_precedence (env : DriveEnv) (fi : FileInfo) (bytes : List Byte)
    (hfetch : env.getMedia fi.id = .ok bytes) :
    (strHasSub fi.mimeType "pdf" = true →
      get_file_content env fi =
        (match env.pdfPages bytes with
         | some pages => .ok (.text (String.join pages))
         | none => .error (.parseError "fitz"))) ∧
    (strHasSub fi.mimeType "pdf" = false →
     strHasSub fi.mimeType "vnd.openxmlformats-officedocument.wordprocessingml.document" = true →
      get_file_content env fi =
        (match env.docxParas bytes with
         | some paras => .ok (.text (joinWith "\n" paras))
         | none => .error (.parseError "docx"))) ∧
    (strHasSub fi.mimeType "pdf" = false →
     strHasSub fi.mimeType "vnd.openxmlformats-officedocument.wordprocessingml.document" = false →
     strHasSub fi.mimeType "vnd.openxmlformats-officedocument.presentationml.presentation" = true →
      get_file_content env fi =
        (match env.pptxParse bytes with
         | some prs => .ok (.text (joinWith "\n" (pptxRuns prs)))
         | none => .error (.parseError "pptx"))) ∧
    (strHasSub fi.mimeType "pdf" = false →
     strHasSub fi.mimeType "vnd.openxmlformats-officedocument.wordprocessingml.document" = false →
     strHasSub fi.mimeType "vnd.openxmlformats-officedocument.presentationml.presentation" = false →
     strHasSub fi.mimeType "image" = true →
      get_file_content env fi =
        (if env.imageValid bytes then .ok (.image bytes) else .error (.parseError "PIL"))) ∧
    (strHasSub fi.mimeType "pdf" = false →
     strHasSub fi.mimeType "vnd.openxmlformats-officedocument.wordprocessingml.document" = false →
     strHasSub fi.mimeType "vnd.openxmlformats-officedocument.presentationml.presentation" = false →
     strHasSub fi.mimeType "image" = false →
     strHasSub fi.mimeType "text" = true →
      get_file_content env fi = .ok (.text (utf8DecodeIgnore bytes))) ∧
    (strHasSub fi.mimeType "pdf" = false →
     strHasSub fi.mimeType "vnd.openxmlformats-officedocument.wordprocessingml.document" = false →
     strHasSub fi.mimeType "vnd.openxmlformats-officedocument.presentationml.presentation" = false →
     strHasSub fi.mimeType "image" = false →
     strHasSub fi.mimeType "text" = false →
      get_file_content env fi =
        .ok (.unsupported ("File type ('" ++ fi.mimeType ++ "')"))) := by
  refine ⟨fun h1 => ?_, fun h1 h2 => ?_, fun h1 h2 h3 => ?_,
    fun h1 h2 h3 h4 => ?_, fun h1 h2 h3 h4 h5 => ?_, fun h1 h2 h3 h4 h5 => ?_⟩ <;>
    simp [get_file_content, hfetch, h1]
  · simp [h2]
  · simp [h2, h3]
  · simp [h2, h3, h4]
  · simp [h2, h3, h4, h5]
  · simp [h2, h3, h4, h5]

/-- Witness for C7: the MIME type "text/pdf" matches both the `pdf` rule
and the `text` rule; dispatch resolves it to the earlier rule, pdf. -/
theorem C7_dispatch_precedence_witness :
    strHasSub "text/pdf" "pdf" = true ∧ strHasSub "text/pdf" "text" = true ∧
    get_file_content envC7 ⟨"id1", "x", "text/pdf"⟩ = .ok (.text "P") := by
  refine ⟨by decide, by decide, ?_⟩
  have h := (C7_dispatch_precedence envC7 ⟨"id1", "x", "text/pdf"⟩ [1] rfl).1 (by decide)
  rw [show envC7.pdfPages [1] = some ["P"] from rfl] at h
  simp only [] at h
  rw [show String.join ["P"] = "P" from by decide] at h
  exact h

/-- C3 (amended): for every byte sequence whose MIME type contains `text`
and matches no earlier dispatch rule, extraction decodes the bytes as
UTF-8 *ignoring* (dropping) undecodable sequences rather than failing:
the call always returns a Text payload and never raises on malformed
UTF-8, but undecodable sequences are dropped, not replaced (the source
uses `errors='ignore'`, not `errors='replace'`). -/
theorem C3_text_decode_ignores (env : DriveEnv) (fi : FileInfo) (bytes : List Byte)
    (hfetch : env.getMedia fi.id = .ok bytes)
    (h1 : strHasSub fi.mimeType "pdf" = false)
    (h2 : strHasSub fi.mimeType "vnd.openxmlformats-officedocument.wordprocessingml.document" = false)
    (h3 : strHasSub fi.mimeType "vnd.openxmlformats-officedocument.presentationml.presentation" = false)
    (h4 : strHasSub fi.mimeType "image" = false)
    (h5 : strHasSub fi.mimeType "text" = true) :
    get_file_content env fi = .ok (.text (utf8DecodeIgnore bytes)) := by
  simp [get_file_content, hfetch, h1, h2, h3, h4, h5]

/-- Witness for C3 (amended): on the bytes `b'A\xffB'` with MIME type
`text/plain`, extraction returns a Text payload without raising. -/
theorem C3_text_decode_ignores_witness :
    get_file_content envC3 ⟨"id1", "a.txt", "text/plain"⟩ =
      .ok (.text (utf8DecodeIgnore [65, 255, 66])) :=
  C3_text_decode_ignores envC3 ⟨"id1", "a.txt", "text/plain"⟩ [65, 255, 66] rfl
    (by decide) (by decide) (by decide) (by decide) (by decide)

/-- Counterexample to C3 as stated: on the bytes `b'A\xffB'` (MIME type
`text/plain`), the code returns "AB" — the undecodable byte is dropped —
whereas decoding with replacement would give a three-character string
with U+FFFD in the middle; so undecodable sequences are not replaced, and
the result differs from the replace-mode decode the claim asserts. -/
theorem C3_counterexample :
    get_file_content envC3 ⟨"id1", "a.txt", "text/plain"⟩ = .ok (.text "AB") ∧
    utf8DecodeReplace [65, 255, 66] =
      String.mk ['A', Char.ofNat 0xFFFD, 'B'] ∧
    get_file_content envC3 ⟨"id1", "a.txt", "text/plain"⟩ ≠
      .ok (.text (utf8DecodeReplace [65, 255, 66])) := by
  refine ⟨by decide, by decide, by decide⟩

/-- C5: when the primary byte fetch raises an `HttpError` and the MIME
type is provider-native (`google-apps`), extraction returns: Unsupported
for shortcuts; the plain-text export decoded as strict UTF-8 for document
and presentation types; the CSV export (also strictly decoded) for
spreadsheet types; and Unsupported naming the MIME type for any other
native type. When the MIME type is not provider-native, it returns the
generic "Google Drive API Error" Unsupported payload. -/
theorem C5_export_fallback (env : DriveEnv) (fi : FileInfo) (e : HttpError)
    (hfetch : env.getMedia fi.id = .error e) :
    (fi.mimeType = "application/vnd.google-apps.shortcut" →
      get_file_content env fi = .ok (.unsupported "Google Drive Shortcut")) ∧
    (fi.mimeType = "application/vnd.google-apps.document" →
      ∀ eb s, env.exportMedia fi.id "text/plain" = .ok eb → utf8DecodeStrict eb = some s →
        get_file_content env fi = .ok (.text s)) ∧
    (fi.mimeType = "application/vnd.google-apps.presentation" →
      ∀ eb s, env.exportMedia fi.id "text/plain" = .ok eb → utf8DecodeStrict eb = some s →
        get_file_content env fi = .ok (.text s)) ∧
    (fi.mimeType = "application/vnd.google-apps.spreadsheet" →
      ∀ eb s, env.exportMedia fi.id "text/csv" = .ok eb → utf8DecodeStrict eb = some s →
        get_file_content env fi = .ok (.text s)) ∧
    (strHasSub fi.mimeType "google-apps" = true →
     fi.mimeType ≠ "application/vnd.google-apps.shortcut" →
     fi.mimeType ≠ "application/vnd.google-apps.document" →
     fi.mimeType ≠ "application/vnd.google-apps.spreadsheet" →
     fi.mimeType ≠ "application/vnd.google-apps.presentation" →
      get_file_content env fi =
        .ok (.unsupported ("Google Workspace type (" ++ fi.mimeType ++ ")"))) ∧
    (strHasSub fi.mimeType "google-apps" = false →
      get_file_content env fi = .ok (.unsupported "Google Drive API Error")) := by
  refine ⟨fun hm => ?_, fun hm eb s hexp hdec => ?_, fun hm eb s hexp hdec => ?_,
    fun hm eb s hexp hdec => ?_, fun hg h1 h2 h3 h4 => ?_, fun hg => ?_⟩
  · simp [get_file_content, hfetch, hm]
    decide
  · have hg : strHasSub fi.mimeType "google-apps" = true := by rw [hm]; decide
    simp [get_file_content, hfetch, hm, hg, hexp, hdec]
    decide
  · have hg : strHasSub fi.mimeType "google-apps" = true := by rw [hm]; decide
    simp [get_file_content, hfetch, hm, hg, hexp, hdec]
    decide
  · have hg : strHasSub fi.mimeType "google-apps" = true := by rw [hm]; decide
    simp [get_file_content, hfetch, hm, hg, hexp, hdec]
    decide
  · simp [get_file_content, hfetch, hg, h1, h2, h3, h4]
  · simp [get_file_content, hfetch, hg]

/-- Witness for C5: with the primary fetch failing, a Google Docs file is
exported as plain text and strictly decoded, and a shortcut is reported
Unsupported. -/
theorem C5_export_fallback_witness :
    get_file_content envC5 ⟨"id1", "d", "application/vnd.google-apps.document"⟩ =
      .ok (.text "Hi") ∧
    get_file_content envC5 ⟨"id2", "s", "application/vnd.google-apps.shortcut"⟩ =
      .ok (.unsupported "Google Drive Shortcut") := by
  constructor
  · have h := (C5_export_fallback envC5 ⟨"id1", "d", "application/vnd.google-apps.document"⟩
      ⟨"403"⟩ rfl).2.1 rfl [72, 105] "Hi" rfl (by decide)
    exact h
  · exact (C5_export_fallback envC5 ⟨"id2", "s", "application/vnd.google-apps.shortcut"⟩
      ⟨"403"⟩ rfl).1 rfl

/-- C8 (amended): presentation extraction visits slides in order, then
shapes in order within each slide, then paragraph runs in order within
each shape, and joins the collected run texts with newline separators
(`"\n".join`, not plain concatenation); shapes without a text frame
contribute nothing to the output. The first conjunct is the extraction
result; the second states slide-order preservation; the third states that
a shape without a text frame contributes nothing; the fourth states that
a shape with a text frame contributes its paragraphs' runs in order. -/
theorem C8_presentation_order (env : DriveEnv) (fi : FileInfo) (bytes : List Byte)
    (prs : Presentation)
    (h1 : strHasSub fi.mimeType "pdf" = false)
    (h2 : strHasSub fi.mimeType "vnd.openxmlformats-officedocument.wordprocessingml.document" = false)
    (h3 : strHasSub fi.mimeType "vnd.openxmlformats-officedocument.presentationml.presentation" = true)
    (hfetch : env.getMedia fi.id = .ok bytes)
    (hparse : env.pptxParse bytes = some prs) :
    get_file_content env fi = .ok (.text (joinWith "\n" (pptxRuns prs))) ∧
    (∀ sl1 sl2 : List (List PShape),
      pptxRuns ⟨sl1 ++ sl2⟩ = pptxRuns ⟨sl1⟩ ++ pptxRuns ⟨sl2⟩) ∧
    (∀ (shapes1 shapes2 : List PShape) (rest : List (List PShape)),
      pptxRuns ⟨(shapes1 ++ ⟨none⟩ :: shapes2) :: rest⟩ =
        pptxRuns ⟨(shapes1 ++ shapes2) :: rest⟩) ∧
    (∀ paragraphs, shapeRuns ⟨some paragraphs⟩ = paragraphs.flatten) := by
  refine ⟨?_, ?_, ?_, ?_⟩
  · simp [get_file_content, hfetch, h1, h2, h3, hparse]
  · intro sl1 sl2
    simp [pptxRuns]
  · intro shapes1 shapes2 rest
    simp [pptxRuns, shapeRuns]
  · intro paragraphs
    simp [shapeRuns]

/-- Witness for C8 (amended): on the `envC8` presentation the no-frame
shape contributes nothing and the runs "A", "B" come out newline-joined. -/
theorem C8_presentation_order_witness :
    get_file_content envC8 ⟨"id1", "p.pptx", pptxMime⟩ = .ok (.text "A\nB") := by
  have h := (C8_presentation_order envC8 ⟨"id1", "p.pptx", pptxMime⟩ [1]
    ⟨[[⟨none⟩, ⟨some [["A"], ["B"]]⟩]]⟩ (by decide) (by decide) (by decide) rfl rfl).1
  rw [show joinWith "\n" (pptxRuns ⟨[[⟨none⟩, ⟨some [["A"], ["B"]]⟩]]⟩) = "A\nB" from by decide]
    at h
  exact h

/-- Counterexample to C8 as stated: with runs "A" and "B" (one slide, one
shape, two paragraphs), the code yields "A\nB" — runs are newline-joined,
not concatenated — so the extraction differs from the concatenation "AB"
the claim asserts. -/
theorem C8_counterexample :
    get_file_content envC8 ⟨"id1", "p.pptx", pptxMime⟩ = .ok (.text "A\nB") ∧
    get_file_content envC8 ⟨"id1", "p.pptx", pptxMime⟩ ≠ .ok (.text "AB") := by
  refine ⟨by decide, by decide⟩

/-- C1 (amended): provided extraction returns normally for every selected
descriptor — that is, the map loop runs to completion without an escaping
parse/decode exception — every file descriptor in the user-selected set
yields exactly one terminal outcome (a text summary appended, an image
payload accumulated, or a recorded unsupported/error warning) and none is
silently dropped: the number of outcomes recorded grows by exactly the
number of descriptors processed. -/
theorem C1_one_outcome_per_descriptor (api : ApiEnv) (env : DriveEnv)
    (files : List FileInfo) (s0 s : MapState)
    (h : runMap api env files s0 = .ok s) :
    outcomeCount s = outcomeCount s0 + files.length := by
  induction files generalizing s0 with
  | nil =>
    simp [runMap] at h
    subst h
    simp
  | cons f fs ih =>
    unfold runMap at h
    cases hp : processFile api env s0 f with
    | error e =>
      rw [hp] at h
      cases h
    | ok s1 =>
      rw [hp] at h
      have h1 := processFile_one_outcome api env s0 f s1 hp
      have h2 := ih s1 h
      simp [List.length_cons]
      omega

/-- Witness for C1 (amended): one unsupported file (`application/zip`)
processed from the empty state records exactly one outcome. -/
theorem C1_one_outcome_per_descriptor_witness :
    outcomeCount stateZip = outcomeCount initState + 1 :=
  C1_one_outcome_per_descriptor apiOk envPlain [⟨"id1", "f.bin", "application/zip"⟩]
    initState stateZip (by decide)

/-- Counterexample to C1 as stated: a selected file of MIME type
`image/png` whose downloaded bytes `PIL.Image.open` rejects makes the
extraction raise an uncaught exception, which escapes the loop and aborts
the whole batch — the descriptor gets no terminal outcome at all, so one
run of the orchestration does not give every descriptor a terminal
outcome. -/
theorem C1_counterexample :
    runMap apiOk envPlain [⟨"id1", "pic.png", "image/png"⟩] initState =
      .error (.parseError "PIL") ∧
    runAnalysis apiOk envPlain [⟨"id1", "pic.png", "image/png"⟩] "q" =
      .error (.parseError "PIL") := by
  refine ⟨by decide, by decide⟩

/-- C2 (amended): if at least one summary or image payload was produced,
the synthesis (`gpt-4o`) model call is made exactly once; if none were
produced, the model is not called — but, the claim notwithstanding,
nothing at all is reported to the user (the reduce step has no `else`
branch, so no "no supported files" message exists): the reduce step
makes no model call and displays nothing. -/
theorem C2_synthesis_gate (api : ApiEnv) (s : MapState) (q : String) :
    (¬(s.summaries = [] ∧ s.image_parts = []) →
      (reduceStep api s q).modelCalls.length = 1) ∧
    ((s.summaries = [] ∧ s.image_parts = []) →
      reduceStep api s q = ⟨[], []⟩) := by
  constructor
  · intro h
    have hb : (s.summaries.isEmpty && s.image_parts.isEmpty) = false := by
      rcases Decidable.not_and_iff_or_not.mp h with h1 | h1 <;>
        simp [List.isEmpty_iff, h1]
    rw [reduceStep, hb]
    simp
  · rintro ⟨h1, h2⟩
    rw [reduceStep]
    simp [h1, h2]

/-- Witness for C2 (amended): with one summary present the reduce step
calls the model exactly once; with neither summaries nor images it makes
no call and displays nothing. -/
theorem C2_synthesis_gate_witness :
    (reduceStep apiOk ⟨["s1"], [], [], []⟩ "q").modelCalls.length = 1 ∧
    reduceStep apiOk ⟨[], [], [], ["w"]⟩ "q" = ⟨[], []⟩ :=
  ⟨(C2_synthesis_gate apiOk ⟨["s1"], [], [], []⟩ "q").1 (by simp),
   (C2_synthesis_gate apiOk ⟨[], [], [], ["w"]⟩ "q").2 ⟨rfl, rfl⟩⟩

/-- Counterexample to C2 as stated: a run over a single unsupported file
produces no summaries and no images; the reduce step then makes no model
call and displays nothing — in particular no "no supported files" result
is reported to the user, contrary to the claim. -/
theorem C2_counterexample :
    runAnalysis apiOk envPlain [⟨"id1", "f.bin", "application/zip"⟩] "q" =
      .ok (stateZip, ⟨[], []⟩) := by
  decide

/-- C4: the per-file summarizer returns the model's text on success and,
on any transport/API failure, returns a string prefixed with the
`"ERROR:"` marker instead of raising; the orchestrator detects the prefix
and records an error for that file, and the loop goes on to the remaining
files with only the error list grown — so one file's summarization
failure never prevents summarization of other files or the eventual
synthesis call. -/
theorem C4_error_prefix_isolation (api : ApiEnv) (env : DriveEnv) (e : String)
    (fi : FileInfo) (content : String) (s : MapState) (fs : List FileInfo)
    (hext : get_file_content env fi = .ok (.text content))
    (hapi : api.call "gpt-4o-mini"
      [⟨"user", .plain (summaryPrompt fi.name content)⟩] 500 = .error e) :
    get_ai_response api "gpt-4o-mini"
      [⟨"user", .plain (summaryPrompt fi.name content)⟩] 500 = "ERROR: " ++ e ∧
    strStartsWith ("ERROR: " ++ e) "ERROR:" = true ∧
    runMap api env (fi :: fs) s =
      runMap api env fs { s with errors := s.errors ++
        ["Could not summarize " ++ fi.name ++ ": " ++ ("ERROR: " ++ e)] } ∧
    (∀ r, api.call "gpt-4o-mini"
        [⟨"user", .plain (summaryPrompt fi.name content)⟩] 500 = .ok r →
      get_ai_response api "gpt-4o-mini"
        [⟨"user", .plain (summaryPrompt fi.name content)⟩] 500 = r) := by
  have hresp : get_ai_response api "gpt-4o-mini"
      [⟨"user", .plain (summaryPrompt fi.name content)⟩] 500 = "ERROR: " ++ e := by
    simp [get_ai_response, hapi]
  refine ⟨hresp, strStartsWith_error_marker e, ?_, ?_⟩
  · rw [runMap]
    rw [show processFile api env s fi = .ok { s with errors := s.errors ++
        ["Could not summarize " ++ fi.name ++ ": " ++ ("ERROR: " ++ e)] } from by
      simp [processFile, hext, hresp, strStartsWith_error_marker e]]
  · intro r hr
    rw [hr] at hapi
    cases hapi

/-- Witness for C4: with an OpenAI capability that always raises "boom",
processing a text file records the prefixed error message and the run
over just that file ends normally with one recorded error. -/
theorem C4_error_prefix_isolation_witness :
    runMap apiFail envPlain [⟨"id1", "a.txt", "text/plain"⟩] initState =
      .ok ⟨[], [], ["Could not summarize a.txt: ERROR: boom"], []⟩ := by
  have h := (C4_error_prefix_isolation apiFail envPlain "boom"
    ⟨"id1", "a.txt", "text/plain"⟩ "Hi" initState [] (by decide) rfl).2.2.1
  rw [h]
  decide

/-- C6: for a run producing summaries S1, S2 (in selection order) and one
image I, the synthesis request payload is: one text part holding the
framing line followed by S1 and S2 joined in original selection order,
then one text part holding the literal user question, then exactly one
`image_url` part carrying the base64 encoding of I — and the whole
request is a single `gpt-4o` call. -/
theorem C6_synthesis_payload (api : ApiEnv) (s1 s2 nm q : String) (ib : List Byte)
    (er w : List String) :
    (reduceStep api ⟨[s1, s2], [(nm, ib)], er, w⟩ q).modelCalls =
      [("gpt-4o",
        [⟨"user", .parts
          [.textPart
            ("Based on the following summaries and images, please answer the user's question.\n\n"
              ++ (s1 ++ "\n\n" ++ s2)),
           .textPart ("\n\n--- USER QUESTION ---\n" ++ q),
           .imageUrlPart ("data:image/jpeg;base64," ++ base64Encode ib)]⟩],
        4000)] := by
  simp [reduceStep, buildMessageContent, finalContext, joinWith]

/-- C10: every collected image payload is encoded in the synthesis
request as a data URL with the fixed prefix `data:image/jpeg;base64,`
built from the image's bytes alone, regardless of the image's actual MIME
type (the accumulated image entries store only name and bytes, and a file
of any `image/...` MIME type is accumulated as such an entry); and the
image's display name, although collected alongside its bytes, never
appears in the synthesis request: renaming every image leaves the reduce
step's output unchanged. -/
theorem C10_jpeg_label_and_no_name (api : ApiEnv) (env : DriveEnv) (s : MapState)
    (q : String) (rename : String → String) :
    ((buildMessageContent s.summaries s.image_parts q).drop 2 =
      s.image_parts.map fun img =>
        .imageUrlPart ("data:image/jpeg;base64," ++ base64Encode img.2)) ∧
    (reduceStep api
        { s with image_parts := s.image_parts.map fun p => (rename p.1, p.2) } q =
      reduceStep api s q) ∧
    (∀ fi bytes, get_file_content env fi = .ok (.image bytes) →
      processFile api env s fi =
        .ok { s with image_parts := s.image_parts ++ [(fi.name, bytes)] }) := by
  refine ⟨?_, ?_, ?_⟩
  · simp [buildMessageContent]
  · rw [reduceStep, reduceStep]
    have hmap : ((fun img : String × List Byte =>
          MsgPart.imageUrlPart ("data:image/jpeg;base64," ++ base64Encode img.2)) ∘
        (fun p : String × List Byte => (rename p.1, p.2))) =
        fun img : String × List Byte =>
          MsgPart.imageUrlPart ("data:image/jpeg;base64," ++ base64Encode img.2) := by
      funext p
      rfl
    simp [buildMessageContent, List.map_map, hmap]
  · intro fi bytes hext
    simp [processFile, hext]

/-- Witness for C10: a `image/png` file with valid bytes `[9]` is
accumulated as a (name, bytes) pair, and its synthesis part is the
JPEG-labeled base64 data URL of those bytes. -/
theorem C10_jpeg_label_and_no_name_witness :
    processFile apiOk envImgOk initState ⟨"id1", "pic.png", "image/png"⟩ =
      .ok ⟨[], [("pic.png", [9])], [], []⟩ ∧
    (buildMessageContent [] [("pic.png", [9])] "q").drop 2 =
      [.imageUrlPart ("data:image/jpeg;base64," ++ base64Encode [9])] := by
  constructor
  · have h := (C10_jpeg_label_and_no_name apiOk envImgOk initState "q" id).2.2
      ⟨"id1", "pic.png", "image/png"⟩ [9] (by decide)
    rw [h]
    decide
  · have h := (C10_jpeg_label_and_no_name apiOk envImgOk ⟨[], [("pic.png", [9])], [], []⟩
      "q" id).1
    rw [h]
    decide

end DriveGPT
